import Mathlib

/-!
Verification development for the work-item lifecycle and audit engine.

The order data-access module (`src/unnamed/part_001`), the lead kanban
handlers (`src/unnamed/part_000`) and the worker schedule page
(`src/pages/WorkerSchedule.tsx`) are embedded shallowly: JavaScript
objects become structures, `undefined` versus `null` on a patch field
becomes `Option (Option _)`, awaited side effects become an explicit
event trace in execution order, and the Supabase store becomes an
in-memory record store.  Modules of the repository that are not under
`src/` (the notifications module, `../lib/database` for leads,
`../lib/timeLogs`, `../types/database`) are modelled from the spec and
carry a doc comment saying so.
-/

namespace Spec2Proof

/-- An order row, restricted to the fields read or written by the
embedded operations (`Order` in `../types/database`). -/
structure Order where
  id : String
  title : String
  status : String
  value : Option ℚ
  organisation_id : String
  assigned_to_user_id : Option String
  assigned_to_team_id : Option String
deriving DecidableEq, Repr

/-- A team row with its member user ids (`teams` relation). -/
structure Team where
  id : String
  name : String
  members : List String
deriving DecidableEq, Repr

/-- An `order_activities` row as inserted by `createOrderActivity`. -/
structure OrderActivity where
  order_id : String
  user_id : Option String
  activity_type : String
  description : String
  old_value : Option String
  new_value : Option String
deriving DecidableEq, Repr

/-- An `order_notes` row as inserted by `createOrderNote`. -/
structure OrderNote where
  order_id : String
  user_id : String
  content : String
deriving DecidableEq, Repr

/-- An addressed notification payload.  The fields are the arguments the
call sites in `src/unnamed/part_001` hand to the generators. -/
structure Notification where
  recipients : List String
  kind : String
  order_title : Option String := none
  old_label : Option String := none
  new_label : Option String := none
  team_name : Option String := none
  link : Option String := none
deriving DecidableEq, Repr

/-- The backing record store visible to the order module. -/
structure Store where
  orders : List Order
  teams : List Team
  activities : List OrderActivity
  notes : List OrderNote
deriving DecidableEq, Repr

/-- One observable side effect of an operation, in execution order:
a persistence write, a notification enqueue, a logged delivery failure,
or an activity append. -/
inductive Event where
  | persist (o : Order)
  | notify (n : Notification)
  | logged
  | activity (a : OrderActivity)
deriving DecidableEq, Repr

/-- A `Partial<Order>` patch as passed to `updateOrder`: the outer
`Option` is JavaScript `undefined` (field absent from the patch), the
inner `Option` on assignment fields is `null` (explicit un-assignment). -/
structure OrderUpdates where
  status : Option String := none
  assigned_to_user_id : Option (Option String) := none
  assigned_to_team_id : Option (Option String) := none
deriving DecidableEq, Repr

/-- JavaScript truthiness of a nullable string: `undefined`, `null` and
the empty string are falsy. -/
def truthyStr : Option String → Bool
  | none => false
  | some s => s != ""

/-- JavaScript `x || undefined` on a nullable string: `null` and the
empty string collapse to `undefined`. -/
def orUndefined : Option String → Option String
  | none => none
  | some s => if s = "" then none else some s

/-- Modelled from the spec: `ORDER_STATUS_LABELS` lives in
`../types/database`, which is not under `src/`.  The spec (section 8
scenario) pins the labels `Ny` for `new` and `Kontaktad` for
`contacted`; statuses the spec does not name keep their raw value. -/
def ORDER_STATUS_LABELS (s : String) : String :=
  if s = "new" then "Ny"
  else if s = "contacted" then "Kontaktad"
  else s

/-- Modelled from the spec: `generateStatusUpdateNotification` lives in
`./notifications`, which is not under `src/`.  Per section 4.4 it is a
pure translation step addressing the single recipient; the fields store
the arguments of the call in `createStatusChangeNotification`. -/
def generateStatusUpdateNotification (userId orderTitle oldLabel newLabel link : String) :
    Notification :=
  { recipients := [userId], kind := "status_update", order_title := some orderTitle,
    old_label := some oldLabel, new_label := some newLabel, link := some link }

/-- Modelled from the spec: `generateOrderAssignmentNotification` lives
in `./notifications`, which is not under `src/`.  Per section 4.2 it
addresses the newly assigned user. -/
def generateOrderAssignmentNotification (userId orderId orderTitle : String) : Notification :=
  { recipients := [userId], kind := "order_assignment", order_title := some orderTitle,
    link := some ("/ordrar?highlight=" ++ orderId) }

/-- Modelled from the spec: `generateTeamAssignmentNotification` lives
in `./notifications`, which is not under `src/`.  Per section 4.2 the
notification goes to all members of the newly assigned team except the
excluded user id the call site supplies; the real module resolves the
member list from the team id, modelled here by receiving the resolved
team. -/
def generateTeamAssignmentNotification (team : Team) (orderId orderTitle : String)
    (excludeUserId : Option String) : Notification :=
  { recipients := team.members.filter (fun m => excludeUserId != some m),
    kind := "team_assignment", order_title := some orderTitle,
    team_name := some team.name, link := some ("/ordrar?highlight=" ++ orderId) }

/-- Modelled from the spec: `createNotification` lives in
`./notifications`, which is not under `src/`.  It enqueues the payload
at the notification sink; per sections 4.4 and 7 a `DeliveryFailure` is
logged and is never surfaced to the caller, so the function yields only
trace events.  `sink` says whether delivery succeeds. -/
def createNotificationEvents (sink : Notification → Bool) (n : Notification) : List Event :=
  Event.notify n :: (if sink n then [] else [Event.logged])

/-- Merge a patch into an order, as the store-level `update` does
(absent fields keep their value). -/
def applyUpdates (o : Order) (u : OrderUpdates) : Order :=
  { o with
    status := u.status.getD o.status
    assigned_to_user_id := u.assigned_to_user_id.getD o.assigned_to_user_id
    assigned_to_team_id := u.assigned_to_team_id.getD o.assigned_to_team_id }

/-- The guard `updates.status && updates.status !== currentOrder.status`
of `updateOrder` (src/unnamed/part_001:175). -/
def statusChanged (cur : Order) (u : OrderUpdates) : Bool :=
  match u.status with
  | none => false
  | some s => s != "" && s != cur.status

/-- The guard `updates.assigned_to_user_id !== undefined &&
updates.assigned_to_user_id !== currentOrder.assigned_to_user_id`
(src/unnamed/part_001:197). -/
def userAssignChanged (cur : Order) (u : OrderUpdates) : Bool :=
  match u.assigned_to_user_id with
  | none => false
  | some v => v != cur.assigned_to_user_id

/-- The guard `updates.assigned_to_team_id !== undefined &&
updates.assigned_to_team_id !== currentOrder.assigned_to_team_id`
(src/unnamed/part_001:218). -/
def teamAssignChanged (cur : Order) (u : OrderUpdates) : Bool :=
  match u.assigned_to_team_id with
  | none => false
  | some v => v != cur.assigned_to_team_id

/-- The `status_changed` activity row appended by `updateOrder`
(src/unnamed/part_001:187). -/
def statusActivity (orderId oldS newS : String) : OrderActivity :=
  { order_id := orderId, user_id := none, activity_type := "status_changed",
    description := "Status ändrad från " ++ ORDER_STATUS_LABELS oldS
      ++ " till " ++ ORDER_STATUS_LABELS newS,
    old_value := some oldS, new_value := some newS }

/-- The status-update notification built by
`createStatusChangeNotification` (src/unnamed/part_001:482). -/
def statusNotification (cur merged : Order) (newS : String) : Notification :=
  generateStatusUpdateNotification (merged.assigned_to_user_id.getD "") merged.title
    (ORDER_STATUS_LABELS cur.status) (ORDER_STATUS_LABELS newS)
    ("/ordrar?highlight=" ++ merged.id)

/-- Activities appended by the status branch of `updateOrder`. -/
def statusActs (cur merged : Order) (u : OrderUpdates) : List OrderActivity :=
  if statusChanged cur u then [statusActivity merged.id cur.status (u.status.getD cur.status)]
  else []

/-- Trace events of the status branch of `updateOrder`
(src/unnamed/part_001:175-195): the notification to the assigned user,
if any, is awaited before the activity append. -/
def statusEvts (sink : Notification → Bool) (cur merged : Order) (u : OrderUpdates) :
    List Event :=
  if statusChanged cur u then
    (if truthyStr merged.assigned_to_user_id then
      createNotificationEvents sink (statusNotification cur merged (u.status.getD cur.status))
    else [])
    ++ [Event.activity (statusActivity merged.id cur.status (u.status.getD cur.status))]
  else []

/-- The `assigned` activity row appended by `updateOrder`
(src/unnamed/part_001:208). -/
def userAssignActivity (orderId : String) (v : Option String) : OrderActivity :=
  { order_id := orderId, user_id := none, activity_type := "assigned",
    description := if truthyStr v then "Order tilldelad" else "Tilldelning borttagen",
    old_value := none, new_value := none }

/-- Activities appended by the user-assignment branch of `updateOrder`. -/
def userAssignActs (cur merged : Order) (u : OrderUpdates) : List OrderActivity :=
  if userAssignChanged cur u then [userAssignActivity merged.id (u.assigned_to_user_id.getD none)]
  else []

/-- Trace events of the user-assignment branch of `updateOrder`
(src/unnamed/part_001:197-216). -/
def userAssignEvts (sink : Notification → Bool) (cur merged : Order) (u : OrderUpdates) :
    List Event :=
  if userAssignChanged cur u then
    (if truthyStr (u.assigned_to_user_id.getD none) then
      createNotificationEvents sink
        (generateOrderAssignmentNotification ((u.assigned_to_user_id.getD none).getD "")
          merged.id merged.title)
    else [])
    ++ [Event.activity (userAssignActivity merged.id (u.assigned_to_user_id.getD none))]
  else []

/-- The name shown for `data.assigned_team?.name`: JavaScript renders a
missing relation as the text `undefined` inside a template literal. -/
def teamNameOrUndefined : Option Team → String
  | some t => t.name
  | none => "undefined"

/-- The `team_assigned` activity row appended by `updateOrder`
(src/unnamed/part_001:231). -/
def teamAssignActivity (orderId : String) (v : Option String) (newTeam : Option Team) :
    OrderActivity :=
  { order_id := orderId, user_id := none, activity_type := "team_assigned",
    description := if truthyStr v then "Order tilldelad till team: " ++ teamNameOrUndefined newTeam
      else "Team-tilldelning borttagen",
    old_value := none, new_value := none }

/-- Activities appended by the team-assignment branch of `updateOrder`. -/
def teamAssignActs (cur merged : Order) (newTeam : Option Team) (u : OrderUpdates) :
    List OrderActivity :=
  if teamAssignChanged cur u then
    [teamAssignActivity merged.id (u.assigned_to_team_id.getD none) newTeam]
  else []

/-- Trace events of the team-assignment branch of `updateOrder`
(src/unnamed/part_001:218-239): the team notification is built with the
pre-update `currentOrder.assigned_to_user_id` as the excluded user. -/
def teamAssignEvts (sink : Notification → Bool) (cur merged : Order) (newTeam : Option Team)
    (u : OrderUpdates) : List Event :=
  if teamAssignChanged cur u then
    (match (if truthyStr (u.assigned_to_team_id.getD none) then newTeam else none) with
    | some t =>
      createNotificationEvents sink
        (generateTeamAssignmentNotification t merged.id merged.title
          (orUndefined cur.assigned_to_user_id))
    | none => [])
    ++ [Event.activity (teamAssignActivity merged.id (u.assigned_to_team_id.getD none) newTeam)]
  else []

/-- Look an order up by id, as the `.eq('id', id).single()` query does. -/
def findOrder (st : Store) (id : String) : Option Order :=
  st.orders.find? (fun o => o.id == id)

/-- Resolve the `assigned_team` relation joined into the updated row. -/
def resolveTeam (st : Store) : Option String → Option Team
  | some tid => st.teams.find? (fun t => t.id == tid)
  | none => none

/-- Result of `updateOrder`: the returned row, the store afterwards and
the side-effect trace in execution order. -/
structure UpdateResult where
  data : Option Order
  store : Store
  trace : List Event
deriving DecidableEq, Repr

/-- Embeds `updateOrder` (src/unnamed/part_001:145-247).  Reads the current
row, applies the patch, then runs the three audited branches in source
order; within the status and assignment branches the notification is
awaited before the activity append.  If the row does not exist the
update errors and nothing happens. -/
def updateOrder (sink : Notification → Bool) (st : Store) (id : String) (u : OrderUpdates) :
    UpdateResult :=
  match findOrder st id with
  | none => { data := none, store := st, trace := [] }
  | some cur =>
    let merged := applyUpdates cur u
    let newTeam := resolveTeam st merged.assigned_to_team_id
    { data := some merged
      store :=
        { st with
          orders := st.orders.map (fun o => if o.id == id then merged else o)
          activities := st.activities ++ statusActs cur merged u
            ++ userAssignActs cur merged u ++ teamAssignActs cur merged newTeam u }
      trace := Event.persist merged ::
        (statusEvts sink cur merged u ++ userAssignEvts sink cur merged u
          ++ teamAssignEvts sink cur merged newTeam u) }

/-- Embeds `createOrderActivity` (src/unnamed/part_001:344-378): inserts one
`order_activities` row. -/
def createOrderActivity (st : Store) (orderId : String) (userId : Option String)
    (activityType description : String) (oldValue newValue : Option String) : Store :=
  { st with activities := st.activities
      ++ [{ order_id := orderId, user_id := userId, activity_type := activityType,
            description := description, old_value := oldValue, new_value := newValue }] }

/-- Embeds `createOrder` (src/unnamed/part_001:114-143): inserts the row, then
logs a system-generated `created` activity.  The id the store assigns to
the new row is a parameter of the embedding. -/
def createOrder (st : Store) (o : Order) : Option Order × Store :=
  let st1 := { st with orders := st.orders ++ [o] }
  let st2 := createOrderActivity st1 o.id none "created" "Order skapad" none none
  (some o, st2)

/-- Embeds `createOrderNote` (src/unnamed/part_001:292-317): inserts the note,
then logs a `note_added` activity under the note's author. -/
def createOrderNote (st : Store) (note : OrderNote) : Option OrderNote × Store :=
  let st1 := { st with notes := st.notes ++ [note] }
  let st2 := createOrderActivity st1 note.order_id (some note.user_id)
    "note_added" "Anteckning tillagd" none none
  (some note, st2)

/-- Order statistics as computed by `getOrderStats`
(src/unnamed/part_001:419-429), over the orders the query fetched. -/
structure OrderStats where
  totalOrders : Nat
  totalValue : ℚ
  averageValue : ℚ
  statusBreakdown : List (String × Nat)
  recentOrders : List Order
deriving DecidableEq, Repr

/-- One step of the `statusBreakdown` reduce:
`acc[order.status] = (acc[order.status] || 0) + 1`. -/
def bumpStatusCount (acc : List (String × Nat)) (s : String) : List (String × Nat) :=
  match acc.find? (fun p => p.1 == s) with
  | some _ => acc.map (fun p => if p.1 == s then (p.1, p.2 + 1) else p)
  | none => acc ++ [(s, 1)]

/-- Embeds `getOrderStats` (src/unnamed/part_001:419-429): a null per-order
`value` counts as `0` (`order.value || 0`), and `averageValue` is
`totalValue / totalOrders` guarded by `totalOrders > 0`. -/
def getOrderStats (orders : List Order) : OrderStats :=
  let totalOrders := orders.length
  let totalValue := (orders.map (fun o => o.value.getD 0)).sum
  { totalOrders := totalOrders
    totalValue := totalValue
    averageValue := if totalOrders > 0 then totalValue / (totalOrders : ℚ) else 0
    statusBreakdown := orders.foldl (fun acc o => bumpStatusCount acc o.status) []
    recentOrders := orders.take 5 }

/-- A lead row, restricted to the fields the kanban handlers read
(`Lead` in `../types/database`). -/
structure Lead where
  id : String
  title : String
  status : String
  assigned_to_user_id : Option String
deriving DecidableEq, Repr

/-- A `lead_activities` row as logged by the kanban handlers; the call
sites in src/unnamed/part_000 pass no old/new value pair. -/
structure LeadActivity where
  lead_id : String
  user_id : Option String
  activity_type : String
  description : String
deriving DecidableEq, Repr

/-- A `lead_notes` row. -/
structure LeadNote where
  lead_id : String
  user_id : String
  content : String
deriving DecidableEq, Repr

/-- The backing record store visible to the lead kanban. -/
structure LeadStore where
  leads : List Lead
  leadActivities : List LeadActivity
  leadNotes : List LeadNote
deriving DecidableEq, Repr

/-- A `Partial<Lead>` patch, with the same `undefined`/`null` reading
as `OrderUpdates`. -/
structure LeadUpdates where
  status : Option String := none
  assigned_to_user_id : Option (Option String) := none
deriving DecidableEq, Repr

/-- Modelled from the spec: `updateLead` lives in `../lib/database`,
which is not under `src/`.  Per section 6 the Record Store
`update(kind, id, patch)` applies the patch and returns the record; the
audit side effects for leads are performed by its callers in
src/unnamed/part_000. -/
def updateLead (st : LeadStore) (id : String) (u : LeadUpdates) : Option Lead × LeadStore :=
  match st.leads.find? (fun l => l.id == id) with
  | none => (none, st)
  | some cur =>
    let merged : Lead :=
      { cur with
        status := u.status.getD cur.status
        assigned_to_user_id := u.assigned_to_user_id.getD cur.assigned_to_user_id }
    (some merged, { st with leads := st.leads.map (fun l => if l.id == id then merged else l) })

/-- Modelled from the spec: `createLeadActivity` lives in
`../lib/database`, which is not under `src/`.  Per section 4.3 the
Audit Log `append(activity)` appends the given immutable record; the
call sites in src/unnamed/part_000 pass lead id, acting user, kind and
description. -/
def createLeadActivity (st : LeadStore) (leadId : String) (userId : Option String)
    (activityType description : String) : LeadStore :=
  { st with leadActivities := st.leadActivities
      ++ [{ lead_id := leadId, user_id := userId, activity_type := activityType,
            description := description }] }

/-- Modelled from the spec: `createLeadNote` lives in `../lib/database`,
which is not under `src/`.  Per section 3 it inserts the note row. -/
def createLeadNote (st : LeadStore) (leadId userId content : String) :
    Option LeadNote × LeadStore :=
  let note : LeadNote := { lead_id := leadId, user_id := userId, content := content }
  (some note, { st with leadNotes := st.leadNotes ++ [note] })

/-- The inline `statusLabels` table of `handleStatusChange`
(src/unnamed/part_000:545-551); a status outside the table renders as
the text `undefined` inside the template literal. -/
def statusLabels (s : String) : String :=
  if s = "new" then "Ny"
  else if s = "contacted" then "Kontaktad"
  else if s = "qualified" then "Kvalificerad"
  else if s = "won" then "Vunnen"
  else if s = "lost" then "Förlorad"
  else "undefined"

/-- Embeds `handleStatusChange` (src/unnamed/part_000:540-563): requires an
acting user and logs one `status_change` activity with a rendered
description and no old/new value pair. -/
def handleStatusChange (user : Option String) (st : LeadStore)
    (leadId newStatus oldStatus : String) : LeadStore :=
  match user with
  | none => st
  | some uid =>
    createLeadActivity st leadId (some uid) "status_change"
      ("Status ändrad från " ++ statusLabels oldStatus ++ " till " ++ statusLabels newStatus)

/-- Embeds `handleDrop` (src/unnamed/part_000:216-249): dropping onto the
current column is a no-op; otherwise persist the new status via
`updateLead` and, on success, log the status change. -/
def handleDrop (user : Option String) (st : LeadStore) (dragged : Option Lead)
    (newStatus : String) : LeadStore :=
  match dragged with
  | none => st
  | some l =>
    if l.status == newStatus then st
    else
      match updateLead st l.id { status := some newStatus } with
      | (none, st1) => st1
      | (some _, st1) => handleStatusChange user st1 l.id newStatus l.status

/-- Embeds `handleAssignmentChange` (src/unnamed/part_000:336-399): persists
the new assignee (empty string means un-assign) and, when an acting
user is present, logs one `assignment_change` activity naming the
member found in the team list. -/
def handleAssignmentChange (user : Option String) (teamMembers : List (String × String))
    (st : LeadStore) (leadId newAssignedUserId : String) : LeadStore :=
  match updateLead st leadId
      { assigned_to_user_id :=
          some (if newAssignedUserId == "" then none else some newAssignedUserId) } with
  | (none, st1) => st1
  | (some _, st1) =>
    match user with
    | none => st1
    | some uid =>
      let assignedMember := if newAssignedUserId == "" then none
        else teamMembers.find? (fun m => m.1 == newAssignedUserId)
      let description := match assignedMember with
        | some m => "Lead tilldelad till " ++ m.2
        | none => "Lead-tilldelning borttagen"
      createLeadActivity st1 leadId (some uid) "assignment_change" description

/-- Embeds `handleConvertToQuote` (src/unnamed/part_000:481-519): requires a
selected lead and an acting user, logs one `converted_to_quote`
activity, then moves the lead to `qualified` unless it already is. -/
def handleConvertToQuote (user : Option String) (st : LeadStore) (selected : Option Lead) :
    LeadStore :=
  match selected, user with
  | some l, some uid =>
    let st1 := createLeadActivity st l.id (some uid) "converted_to_quote"
      "Lead konverterad till offert"
    if l.status == "qualified" then st1
    else (updateLead st1 l.id { status := some "qualified" }).2
  | _, _ => st

/-- Embeds `handleAddNote` (src/unnamed/part_000:401-428): requires a
non-blank note, a selected lead and an acting user; inserts the note
and logs one `note_added` activity. -/
def handleAddNote (user : Option String) (st : LeadStore) (selected : Option Lead)
    (newNote : String) : LeadStore :=
  if newNote.trim == "" then st
  else
    match selected, user with
    | some l, some uid =>
      match createLeadNote st l.id uid newNote.trim with
      | (none, st1) => st1
      | (some _, st1) => createLeadActivity st1 l.id (some uid) "note_added" "Anteckning tillagd"
    | _, _ => st

/-- The lead status columns of the kanban board
(src/unnamed/part_000:127-133): the status enum valid for leads. -/
def leadStatuses : List String := ["new", "contacted", "qualified", "won", "lost"]

/-- The activity-kind enum the spec states (section 3). -/
def activityKindEnum : List String :=
  ["created", "status_changed", "assigned", "team_assigned", "note_added", "converted", "custom"]

/-- A tracked time session (`time_logs` row). -/
structure TimeSession where
  id : String
  order_id : String
  worker_id : String
  work_type : Option String
  start_time : Nat
  end_time : Option Nat
  location : Option String
  environment : Option String
deriving DecidableEq, Repr

/-- The time-tracking error taxonomy of spec section 7. -/
inductive TimeError where
  | sessionAlreadyActive
  | notFound
  | alreadyStopped
deriving DecidableEq, Repr

/-- Modelled from the spec: `getActiveTimeLog` lives in
`../lib/timeLogs`, which is not under `src/`.  Per section 4.5 it
returns the worker's session with a null end timestamp, if any. -/
def getActiveTimeLog (sessions : List TimeSession) (workerId : String) : Option TimeSession :=
  sessions.find? (fun s => s.worker_id == workerId && s.end_time.isNone)

/-- Modelled from the spec: `startTimeTracking` lives in
`../lib/timeLogs`, which is not under `src/`.  Per section 4.5 it first
calls `getActive(workerId)`; if a session is already active it fails
with `SessionAlreadyActive` without creating a new session or closing
the prior one; otherwise it inserts a new session with a null end
timestamp carrying the caller-supplied context.  The fresh id and the
clock are parameters of the embedding. -/
def startTimeTracking (sessions : List TimeSession) (orderId workerId : String)
    (workType location environment : Option String) (newId : String) (now : Nat) :
    Except TimeError TimeSession × List TimeSession :=
  match getActiveTimeLog sessions workerId with
  | some _ => (Except.error TimeError.sessionAlreadyActive, sessions)
  | none =>
    let s : TimeSession :=
      { id := newId, order_id := orderId, worker_id := workerId, work_type := workType,
        start_time := now, end_time := none, location := location, environment := environment }
    (Except.ok s, sessions ++ [s])

/-- Modelled from the spec: `stopTimeTracking` lives in
`../lib/timeLogs`, which is not under `src/`.  Per section 4.5 it
requires the session to exist and have a null end timestamp, and sets
the end timestamp to the current time. -/
def stopTimeTracking (sessions : List TimeSession) (sessionId : String) (now : Nat) :
    Except TimeError TimeSession × List TimeSession :=
  match sessions.find? (fun s => s.id == sessionId) with
  | none => (Except.error TimeError.notFound, sessions)
  | some s =>
    match s.end_time with
    | some _ => (Except.error TimeError.alreadyStopped, sessions)
    | none =>
      let stopped := { s with end_time := some now }
      (Except.ok stopped,
        sessions.map (fun t => if t.id == sessionId then stopped else t))

/-- Number of sessions with a null end timestamp a worker has. -/
def activeSessionCount (sessions : List TimeSession) (workerId : String) : Nat :=
  (sessions.filter (fun s => s.worker_id == workerId && s.end_time.isNone)).length

/-! ## Concrete fixtures used by counterexamples and witnesses -/

/-- A notification sink on which every delivery succeeds. -/
def sinkOk : Notification → Bool := fun _ => true

/-- A notification sink on which every delivery fails. -/
def sinkFail : Notification → Bool := fun _ => false

def exOrderC2 : Order :=
  { id := "o1", title := "Takbyte", status := "new", value := none, organisation_id := "org1",
    assigned_to_user_id := some "u1", assigned_to_team_id := none }

def exStoreC2 : Store := { orders := [exOrderC2], teams := [], activities := [], notes := [] }

def exOrderC3 : Order :=
  { id := "o3", title := "Fasad", status := "qualified", value := none,
    organisation_id := "org1", assigned_to_user_id := some "u1", assigned_to_team_id := none }

def exStoreC3 : Store := { orders := [exOrderC3], teams := [], activities := [], notes := [] }

def exOrderC4 : Order :=
  { id := "o4", title := "Altan", status := "new", value := none, organisation_id := "org1",
    assigned_to_user_id := none, assigned_to_team_id := none }

def exStoreC4 : Store := { orders := [exOrderC4], teams := [], activities := [], notes := [] }

def exTeamC5 : Team := { id := "t1", name := "TeamA", members := ["u_actor", "u_prev", "u2"] }

def exOrderC5 : Order :=
  { id := "o5", title := "Tak", status := "new", value := none, organisation_id := "org1",
    assigned_to_user_id := some "u_prev", assigned_to_team_id := none }

def exStoreC5 : Store :=
  { orders := [exOrderC5], teams := [exTeamC5], activities := [], notes := [] }

def exOrderC6 : Order :=
  { id := "o6", title := "Garage", status := "new", value := none, organisation_id := "org1",
    assigned_to_user_id := some "u6", assigned_to_team_id := none }

def exStoreC6 : Store := { orders := [exOrderC6], teams := [], activities := [], notes := [] }

def exLeadC7 : Lead :=
  { id := "l1", title := "Villa", status := "new", assigned_to_user_id := none }

def exLeadStoreC7 : LeadStore :=
  { leads := [exLeadC7], leadActivities := [], leadNotes := [] }

def exLeadC8 : Lead :=
  { id := "l8", title := "Radhus", status := "new", assigned_to_user_id := none }

def exLeadStoreC8 : LeadStore :=
  { leads := [exLeadC8], leadActivities := [], leadNotes := [] }

def exSessionC1 : TimeSession :=
  { id := "s1", order_id := "o1", worker_id := "w1", work_type := none,
    start_time := 0, end_time := none, location := none, environment := none }

def exSessionsC1 : List TimeSession := [exSessionC1]

def exOrdersC10 : List Order :=
  [{ id := "oa", title := "A", status := "new", value := none, organisation_id := "org1",
     assigned_to_user_id := none, assigned_to_team_id := none },
   { id := "ob", title := "B", status := "won", value := some 10, organisation_id := "org1",
     assigned_to_user_id := none, assigned_to_team_id := none }]

/-! ## Theorems -/

/-- C1: for every worker, at most one TimeSession with a null end
timestamp exists at any time: `start` preserves the at-most-one-active
bound, and if a session is already active for the worker it fails with
`SessionAlreadyActive`, creates no new session, does not close the prior
session, and `getActive` still returns it. -/
theorem start_time_tracking_single_active
    (sessions : List TimeSession) (orderId workerId : String)
    (workType location environment : Option String) (newId : String) (now : Nat) :
    (activeSessionCount sessions workerId ≤ 1 →
      activeSessionCount
        (startTimeTracking sessions orderId workerId workType location environment newId now).2
        workerId ≤ 1) ∧
    (∀ s, getActiveTimeLog sessions workerId = some s →
      startTimeTracking sessions orderId workerId workType location environment newId now
        = (Except.error TimeError.sessionAlreadyActive, sessions) ∧
      getActiveTimeLog
        (startTimeTracking sessions orderId workerId workType location environment newId now).2
        workerId = some s) := by
  constructor
  · intro hle
    unfold startTimeTracking
    cases hact : getActiveTimeLog sessions workerId with
    | some s => simpa using hle
    | none =>
      have hfil : sessions.filter (fun s => s.worker_id == workerId && s.end_time.isNone) = [] := by
        rw [List.filter_eq_nil_iff]
        intro x hx
        exact List.find?_eq_none.mp hact x hx
      simp [activeSessionCount, List.filter_append, hfil]
  · intro s hs
    unfold startTimeTracking
    rw [hs]
    exact ⟨rfl, hs⟩

/-- Witness for C1 at a concrete state with an active session. -/
theorem start_time_tracking_single_active_witness :
    startTimeTracking exSessionsC1 "o2" "w1" none none none "s2" 5
      = (Except.error TimeError.sessionAlreadyActive, exSessionsC1) ∧
    getActiveTimeLog (startTimeTracking exSessionsC1 "o2" "w1" none none none "s2" 5).2 "w1"
      = some exSessionC1 :=
  (start_time_tracking_single_active exSessionsC1 "o2" "w1" none none none "s2" 5).2
    exSessionC1 (by decide)

/-- C9: a successful `createOrder` appends exactly one `created`
Activity with description `Order skapad` and a null acting user for the
new row, and returns the inserted order. -/
theorem createOrder_logs_created_activity (st : Store) (o : Order) :
    (createOrder st o).1 = some o ∧
    (createOrder st o).2.activities = st.activities ++
      [{ order_id := o.id, user_id := none, activity_type := "created",
         description := "Order skapad", old_value := none, new_value := none }] ∧
    (createOrder st o).2.orders = st.orders ++ [o] :=
  ⟨rfl, rfl, rfl⟩

/-- C10: `getOrderStats` never divides by zero: the average is `0` on an
empty order set, equals `totalValue / totalOrders` (as an exact identity
`average * totalOrders = totalValue`) when orders exist, and a null
per-order value counts as `0` in `totalValue`. -/
theorem getOrderStats_average_no_div_by_zero (orders : List Order) :
    (orders = [] → (getOrderStats orders).averageValue = 0) ∧
    (orders ≠ [] →
      (getOrderStats orders).averageValue * (orders.length : ℚ)
        = (getOrderStats orders).totalValue) ∧
    (getOrderStats orders).totalValue = (orders.map (fun o => o.value.getD 0)).sum := by
  refine ⟨?_, ?_, rfl⟩
  · intro h
    subst h
    rfl
  · intro h
    have hlen : orders.length ≠ 0 := fun hc => h (List.length_eq_zero.mp hc)
    have hq : (orders.length : ℚ) ≠ 0 := Nat.cast_ne_zero.mpr hlen
    simp only [getOrderStats]
    rw [if_pos (Nat.pos_of_ne_zero hlen)]
    exact div_mul_cancel₀ _ hq

/-- Witness for C10 at a concrete nonempty order set with a null value. -/
theorem getOrderStats_average_no_div_by_zero_witness :
    (getOrderStats exOrdersC10).averageValue * ((exOrdersC10.length : Nat) : ℚ)
      = (getOrderStats exOrdersC10).totalValue :=
  (getOrderStats_average_no_div_by_zero exOrdersC10).2.1 (by decide)

/-- Does the event enqueue a notification? -/
def isNotifyEvent : Event → Bool
  | Event.notify _ => true
  | _ => false

/-- Does the event append an activity? -/
def isActivityEvent : Event → Bool
  | Event.activity _ => true
  | _ => false

/-- The side-effect ordering C2 claims for a trace: the first Activity
append precedes the first Notification enqueue. -/
def activityBeforeNotify (tr : List Event) : Prop :=
  ∀ i j, tr.findIdx? isActivityEvent = some i → tr.findIdx? isNotifyEvent = some j → i < j

/-- C2 counterexample: for the transition of order `o1` from `new` to
`contacted` with an assigned user, the operation succeeds and changes
the status, yet the status notification is enqueued at trace position 1
while the `status_changed` Activity is appended at position 2 — the
Activity append does not precede the Notification enqueue. -/
theorem updateOrder_notify_precedes_activity_cex :
    ((updateOrder sinkOk exStoreC2 "o1" { status := some "contacted" }).data.map
        (fun o => o.status) = some "contacted") ∧
    ¬ activityBeforeNotify
        (updateOrder sinkOk exStoreC2 "o1" { status := some "contacted" }).trace := by
  refine ⟨by decide, fun h => ?_⟩
  exact absurd (h 2 1 (by decide) (by decide)) (by decide)

/-- C2 (amended): for every successful status transition that changes
the status (and patches only the status), the persistence write comes
first; then, when the item has an assigned user, the status Notification
is enqueued; only after the notification attempt is the `status_changed`
Activity appended. -/
theorem updateOrder_persist_notify_activity_order
    (sink : Notification → Bool) (st : Store) (id : String) (u : OrderUpdates) (cur : Order)
    (hfind : findOrder st id = some cur)
    (hs : statusChanged cur u = true)
    (hu : u.assigned_to_user_id = none) (ht : u.assigned_to_team_id = none)
    (ha : truthyStr (applyUpdates cur u).assigned_to_user_id = true) :
    (updateOrder sink st id u).trace =
      Event.persist (applyUpdates cur u) ::
        createNotificationEvents sink
          (statusNotification cur (applyUpdates cur u) (u.status.getD cur.status)) ++
        [Event.activity
          (statusActivity (applyUpdates cur u).id cur.status (u.status.getD cur.status))] := by
  unfold updateOrder
  rw [hfind]
  simp [statusEvts, userAssignEvts, teamAssignEvts, userAssignChanged, teamAssignChanged,
    hs, hu, ht, ha]

/-- Witness for the amended C2 at the concrete `new` to `contacted`
transition of `exOrderC2`. -/
theorem updateOrder_persist_notify_activity_order_witness :
    (updateOrder sinkOk exStoreC2 "o1" { status := some "contacted" }).trace =
      Event.persist (applyUpdates exOrderC2 { status := some "contacted" }) ::
        createNotificationEvents sinkOk
          (statusNotification exOrderC2 (applyUpdates exOrderC2 { status := some "contacted" })
            "contacted") ++
        [Event.activity
          (statusActivity (applyUpdates exOrderC2 { status := some "contacted" }).id
            "new" "contacted")] :=
  updateOrder_persist_notify_activity_order sinkOk exStoreC2 "o1"
    { status := some "contacted" } exOrderC2 (by decide) (by decide) rfl rfl (by decide)

/-- C3: transitioning a work item to its current status is a no-op
success: the unchanged item is returned, no Activity is appended and no
Notification is enqueued; a lead dropped onto its current column leaves
the store untouched entirely. -/
theorem updateOrder_same_status_noop
    (sink : Notification → Bool) (st : Store) (id : String) (cur : Order)
    (hfind : findOrder st id = some cur) :
    (updateOrder sink st id { status := some cur.status }).data = some cur ∧
    (updateOrder sink st id { status := some cur.status }).store.activities = st.activities ∧
    (updateOrder sink st id { status := some cur.status }).trace = [Event.persist cur] ∧
    (∀ (user : Option String) (lst : LeadStore) (l : Lead),
      handleDrop user lst (some l) l.status = lst) := by
  have hap : applyUpdates cur { status := some cur.status } = cur := by
    cases cur
    simp [applyUpdates]
  have hsc : statusChanged cur { status := some cur.status } = false := by
    simp [statusChanged]
  refine ⟨?_, ?_, ?_, ?_⟩
  · unfold updateOrder
    rw [hfind]
    simp [hap]
  · unfold updateOrder
    rw [hfind]
    simp [statusActs, userAssignActs, teamAssignActs, userAssignChanged, teamAssignChanged, hsc]
  · unfold updateOrder
    rw [hfind]
    simp [statusEvts, userAssignEvts, teamAssignEvts, userAssignChanged, teamAssignChanged,
      hsc, hap]
  · intro user lst l
    simp [handleDrop]

/-- Witness for C3 at a concrete order already in its requested status. -/
theorem updateOrder_same_status_noop_witness :
    (updateOrder sinkOk exStoreC3 "o3" { status := some exOrderC3.status }).data
      = some exOrderC3 ∧
    (updateOrder sinkOk exStoreC3 "o3" { status := some exOrderC3.status }).store.activities
      = exStoreC3.activities ∧
    (updateOrder sinkOk exStoreC3 "o3" { status := some exOrderC3.status }).trace
      = [Event.persist exOrderC3] ∧
    (∀ (user : Option String) (lst : LeadStore) (l : Lead),
      handleDrop user lst (some l) l.status = lst) :=
  updateOrder_same_status_noop sinkOk exStoreC3 "o3" exOrderC3 (by decide)

/-- C4 counterexample: `not_a_status` is outside the status enum, yet
`updateOrder` succeeds, persists it and appends a `status_changed`
Activity — there is no `InvalidStatus` failure and side effects are
produced. -/
theorem updateOrder_invalid_status_accepted_cex :
    ("not_a_status" ∉ leadStatuses) ∧
    (updateOrder sinkOk exStoreC4 "o4" { status := some "not_a_status" }).data
      = some { exOrderC4 with status := "not_a_status" } ∧
    (updateOrder sinkOk exStoreC4 "o4"
        { status := some "not_a_status" }).store.activities.length = 1 := by
  decide

/-- C4 (amended): `updateOrder` performs no runtime validation of the
requested status: every non-empty status string different from the
current one — member of the valid enum or not — is persisted and yields
a `status_changed` Activity; invalid statuses are excluded only by the
compile-time type layer, not by the operation. -/
theorem updateOrder_no_status_validation
    (sink : Notification → Bool) (st : Store) (id : String) (cur : Order) (s : String)
    (hfind : findOrder st id = some cur) (hne : s ≠ "") (hneq : s ≠ cur.status) :
    (updateOrder sink st id { status := some s }).data = some { cur with status := s } ∧
    (updateOrder sink st id { status := some s }).store.activities
      = st.activities ++ [statusActivity cur.id cur.status s] := by
  have hap : applyUpdates cur { status := some s } = { cur with status := s } := by
    cases cur
    simp [applyUpdates]
  have hsc : statusChanged cur { status := some s } = true := by
    simp [statusChanged, hne, hneq]
  constructor
  · unfold updateOrder
    rw [hfind]
    simp [hap]
  · unfold updateOrder
    rw [hfind]
    simp [statusActs, userAssignActs, teamAssignActs, userAssignChanged, teamAssignChanged,
      hsc, hap]

/-- Witness for the amended C4 at a concrete out-of-enum status. -/
theorem updateOrder_no_status_validation_witness :
    (updateOrder sinkOk exStoreC4 "o4" { status := some "not_a_status" }).data
      = some { exOrderC4 with status := "not_a_status" } ∧
    (updateOrder sinkOk exStoreC4 "o4" { status := some "not_a_status" }).store.activities
      = exStoreC4.activities ++ [statusActivity exOrderC4.id exOrderC4.status "not_a_status"] :=
  updateOrder_no_status_validation sinkOk exStoreC4 "o4" exOrderC4 "not_a_status"
    (by decide) (by decide) (by decide)

/-- The recipient lists of the notifications enqueued in a trace. -/
def notifiedRecipients (tr : List Event) : List (List String) :=
  tr.filterMap (fun e => match e with | Event.notify n => some n.recipients | _ => none)

/-- C5: assigning team `t1` (members `u_actor`, `u_prev`, `u2`) to order
`o5`, previously assigned to user `u_prev`, enqueues one team
notification whose recipients exclude the previously assigned user
`u_prev` — not the acting user: `u_actor` still receives it, because
`updateOrder` has no acting-user input at all and passes
`currentOrder.assigned_to_user_id` as the excluded id despite its own
comment saying the user who made the assignment is excluded. -/
theorem team_notification_excludes_previous_assignee :
    notifiedRecipients
        (updateOrder sinkOk exStoreC5 "o5" { assigned_to_team_id := some (some "t1") }).trace
      = [["u_actor", "u2"]] ∧
    "u_actor" ∈ ["u_actor", "u2"] ∧
    "u_prev" ∉ ["u_actor", "u2"] ∧
    "u_prev" ∈ exTeamC5.members := by
  decide

/-- Is the event a delivery-failure log entry? -/
def isLoggedEvent : Event → Bool
  | Event.logged => true
  | _ => false

/-- Is the event a notification whose delivery fails at the sink? -/
def isFailedNotify (sink : Notification → Bool) : Event → Bool
  | Event.notify n => !(sink n)
  | _ => false

theorem counts_createNotificationEvents (sink : Notification → Bool) (m : Notification) :
    ((createNotificationEvents sink m).filter isLoggedEvent).length
      = ((createNotificationEvents sink m).filter (isFailedNotify sink)).length := by
  cases h : sink m <;> simp [createNotificationEvents, h, isLoggedEvent, isFailedNotify]

theorem counts_statusEvts (sink : Notification → Bool) (cur merged : Order) (u : OrderUpdates) :
    ((statusEvts sink cur merged u).filter isLoggedEvent).length
      = ((statusEvts sink cur merged u).filter (isFailedNotify sink)).length := by
  unfold statusEvts
  split
  · split
    · simp [List.filter_append, isLoggedEvent, isFailedNotify,
        counts_createNotificationEvents sink]
    · simp [isLoggedEvent, isFailedNotify]
  · simp

theorem counts_userAssignEvts (sink : Notification → Bool) (cur merged : Order)
    (u : OrderUpdates) :
    ((userAssignEvts sink cur merged u).filter isLoggedEvent).length
      = ((userAssignEvts sink cur merged u).filter (isFailedNotify sink)).length := by
  unfold userAssignEvts
  split
  · split
    · simp [List.filter_append, isLoggedEvent, isFailedNotify,
        counts_createNotificationEvents sink]
    · simp [isLoggedEvent, isFailedNotify]
  · simp

theorem counts_teamAssignEvts (sink : Notification → Bool) (cur merged : Order)
    (newTeam : Option Team) (u : OrderUpdates) :
    ((teamAssignEvts sink cur merged newTeam u).filter isLoggedEvent).length
      = ((teamAssignEvts sink cur merged newTeam u).filter (isFailedNotify sink)).length := by
  unfold teamAssignEvts
  split
  · split
    · simp [List.filter_append, isLoggedEvent, isFailedNotify,
        counts_createNotificationEvents sink]
    · simp [isLoggedEvent, isFailedNotify]
  · simp

/-- C6: a failure of the notification step never surfaces as a failure
of `updateOrder`: the returned item and the resulting store are
identical under any two notification sinks, every failed delivery in
the trace is matched by a logged entry, and when the row exists the
operation still returns the updated work item. -/
theorem notification_failure_never_fails_update
    (sink1 sink2 : Notification → Bool) (st : Store) (id : String) (u : OrderUpdates) :
    (updateOrder sink1 st id u).data = (updateOrder sink2 st id u).data ∧
    (updateOrder sink1 st id u).store = (updateOrder sink2 st id u).store ∧
    ((updateOrder sink1 st id u).trace.filter isLoggedEvent).length
      = ((updateOrder sink1 st id u).trace.filter (isFailedNotify sink1)).length ∧
    (∀ cur, findOrder st id = some cur →
      (updateOrder sink1 st id u).data = some (applyUpdates cur u)) := by
  refine ⟨?_, ?_, ?_, ?_⟩
  · unfold updateOrder
    cases h : findOrder st id <;> simp
  · unfold updateOrder
    cases h : findOrder st id <;> simp
  · unfold updateOrder
    cases h : findOrder st id with
    | none => simp
    | some cur =>
      simp [List.filter_append, isLoggedEvent, isFailedNotify,
        counts_statusEvts sink1, counts_userAssignEvts sink1, counts_teamAssignEvts sink1]
  · intro cur h
    unfold updateOrder
    rw [h]

/-- Witness for C6: even on a sink where every delivery fails, the
concrete transition still returns the updated order. -/
theorem notification_failure_never_fails_update_witness :
    (updateOrder sinkFail exStoreC6 "o6" { status := some "contacted" }).data
      = some (applyUpdates exOrderC6 { status := some "contacted" }) :=
  (notification_failure_never_fails_update sinkFail sinkOk exStoreC6 "o6"
    { status := some "contacted" }).2.2.2 exOrderC6 (by decide)

/-- C7 counterexample: dragging lead `l1` from `new` to `contacted`
records exactly the description `Status ändrad från Ny till Kontaktad`,
but the appended Activity's kind is `status_change`, not
`status_changed` as the claim requires for every transition. -/
theorem lead_transition_activity_kind_cex :
    ((handleDrop (some "u1") exLeadStoreC7 (some exLeadC7) "contacted").leadActivities.map
        (fun a => a.activity_type) = ["status_change"]) ∧
    ((handleDrop (some "u1") exLeadStoreC7 (some exLeadC7) "contacted").leadActivities.map
        (fun a => a.description) = ["Status ändrad från Ny till Kontaktad"]) ∧
    "status_change" ≠ "status_changed" := by
  decide

/-- C7 (amended): a status transition that changes the status appends
exactly one new Activity and a subsequent read returns the new status,
but the audit record differs per work-item kind: `updateOrder` appends
one `status_changed` Activity carrying the old/new value pair and the
label-table description, while the lead drop path appends one Activity
of kind `status_change` (not `status_changed`) with the rendered
description (e.g. `Status ändrad från Ny till Kontaktad`) and no
old/new value pair. -/
theorem status_transition_audit :
    (∀ (sink : Notification → Bool) (st : Store) (id : String) (cur : Order) (s : String),
      findOrder st id = some cur → s ≠ "" → s ≠ cur.status →
      (updateOrder sink st id { status := some s }).store.activities
          = st.activities ++ [statusActivity cur.id cur.status s] ∧
      (statusActivity cur.id cur.status s).activity_type = "status_changed" ∧
      (statusActivity cur.id cur.status s).old_value = some cur.status ∧
      (statusActivity cur.id cur.status s).new_value = some s ∧
      (∀ o ∈ (updateOrder sink st id { status := some s }).store.orders,
        o.id = id → o.status = s)) ∧
    (∀ (uid : String) (lst : LeadStore) (l : Lead) (ns : String),
      lst.leads.find? (fun x => x.id == l.id) = some l → l.status ≠ ns →
      (handleDrop (some uid) lst (some l) ns).leadActivities
          = lst.leadActivities ++
            [{ lead_id := l.id, user_id := some uid, activity_type := "status_change",
               description := "Status ändrad från " ++ statusLabels l.status
                 ++ " till " ++ statusLabels ns }] ∧
      (∀ x ∈ (handleDrop (some uid) lst (some l) ns).leads, x.id = l.id → x.status = ns)) := by
  constructor
  · intro sink st id cur s hfind hne hneq
    have hap : applyUpdates cur { status := some s } = { cur with status := s } := by
      cases cur
      simp [applyUpdates]
    have hsc : statusChanged cur { status := some s } = true := by
      simp [statusChanged, hne, hneq]
    refine ⟨?_, rfl, rfl, rfl, ?_⟩
    · unfold updateOrder
      rw [hfind]
      simp [statusActs, userAssignActs, teamAssignActs, userAssignChanged, teamAssignChanged,
        hsc, hap]
    · have horders : (updateOrder sink st id { status := some s }).store.orders
          = st.orders.map (fun o =>
              if o.id == id then applyUpdates cur { status := some s } else o) := by
        unfold updateOrder
        rw [hfind]
      intro o hmem ho
      rw [horders] at hmem
      rcases List.mem_map.mp hmem with ⟨b, hb, rfl⟩
      by_cases hbid : (b.id == id) = true
      · rw [if_pos hbid]
        rw [hap]
      · rw [if_neg hbid] at ho ⊢
        exact absurd (beq_iff_eq.mpr ho) hbid
  · intro uid lst l ns hfind hneq
    have hbeq : (l.status == ns) = false := beq_eq_false_iff_ne.mpr hneq
    have hdrop : handleDrop (some uid) lst (some l) ns
        = handleStatusChange (some uid)
            { lst with leads := lst.leads.map (fun x =>
                if x.id == l.id then { l with status := ns } else x) }
            l.id ns l.status := by
      simp only [handleDrop, hbeq, Bool.false_eq_true, if_false]
      unfold updateLead
      rw [hfind]
      rfl
    constructor
    · rw [hdrop]
      rfl
    · intro x hmem hx
      rw [hdrop] at hmem
      have hmem' : x ∈ lst.leads.map (fun b =>
          if b.id == l.id then { l with status := ns } else b) := hmem
      rcases List.mem_map.mp hmem' with ⟨b, hb, rfl⟩
      by_cases hbid : (b.id == l.id) = true
      · rw [if_pos hbid]
      · rw [if_neg hbid] at hx ⊢
        exact absurd (beq_iff_eq.mpr hx) hbid

/-- Witness for the amended C7 at a concrete order transition and a
concrete lead drop. -/
theorem status_transition_audit_witness :
    ((updateOrder sinkOk exStoreC2 "o1" { status := some "qualified" }).store.activities
      = exStoreC2.activities ++ [statusActivity exOrderC2.id exOrderC2.status "qualified"]) ∧
    ((handleDrop (some "u1") exLeadStoreC7 (some exLeadC7) "contacted").leadActivities
      = exLeadStoreC7.leadActivities ++
          [{ lead_id := exLeadC7.id, user_id := some "u1", activity_type := "status_change",
             description := "Status ändrad från " ++ statusLabels exLeadC7.status
               ++ " till " ++ statusLabels "contacted" }]) :=
  ⟨(status_transition_audit.1 sinkOk exStoreC2 "o1" exOrderC2 "qualified"
      (by decide) (by decide) (by decide)).1,
   (status_transition_audit.2 "u1" exLeadStoreC7 exLeadC7 "contacted"
      (by decide) (by decide)).1⟩

/-- C8 counterexample: changing a lead's assignee creates an Activity of
kind `assignment_change`, which is not a member of the spec's
activity-kind enum. -/
theorem lead_activity_kind_outside_enum_cex :
    ((handleAssignmentChange (some "u1") [("u2", "Beta Person")] exLeadStoreC8 "l8"
        "u2").leadActivities.map (fun a => a.activity_type) = ["assignment_change"]) ∧
    "assignment_change" ∉ activityKindEnum := by
  decide

/-- The activity kinds the source actually writes: the spec's enum plus
the three kinds used by the lead kanban handlers. -/
def extendedActivityKinds : List String :=
  activityKindEnum ++ ["status_change", "assignment_change", "converted_to_quote"]

theorem updateLead_leadActivities (st : LeadStore) (id : String) (u : LeadUpdates) :
    (updateLead st id u).2.leadActivities = st.leadActivities := by
  unfold updateLead
  cases h : st.leads.find? (fun l => l.id == id) <;> simp

theorem mem_singleton_of_ite {c : Prop} [Decidable c] {x a : OrderActivity}
    (h : a ∈ (if c then [x] else ([] : List OrderActivity))) : a = x := by
  split at h <;> simp_all

/-- C8 (amended): every Activity record created by the embedded
operations has a kind in the spec's enum extended with the lead-side
kinds `status_change`, `assignment_change` and `converted_to_quote`;
the original enum alone does not cover the lead handlers. -/
theorem activity_kinds_bounded :
    (∀ (sink : Notification → Bool) (st : Store) (id : String) (u : OrderUpdates),
      ∀ a ∈ (updateOrder sink st id u).store.activities,
        a ∈ st.activities ∨ a.activity_type ∈ extendedActivityKinds) ∧
    (∀ (st : Store) (o : Order), ∀ a ∈ (createOrder st o).2.activities,
        a ∈ st.activities ∨ a.activity_type ∈ extendedActivityKinds) ∧
    (∀ (st : Store) (note : OrderNote), ∀ a ∈ (createOrderNote st note).2.activities,
        a ∈ st.activities ∨ a.activity_type ∈ extendedActivityKinds) ∧
    (∀ (user : Option String) (st : LeadStore) (dragged : Option Lead) (ns : String),
      ∀ a ∈ (handleDrop user st dragged ns).leadActivities,
        a ∈ st.leadActivities ∨ a.activity_type ∈ extendedActivityKinds) ∧
    (∀ (user : Option String) (tm : List (String × String)) (st : LeadStore)
        (leadId nid : String),
      ∀ a ∈ (handleAssignmentChange user tm st leadId nid).leadActivities,
        a ∈ st.leadActivities ∨ a.activity_type ∈ extendedActivityKinds) ∧
    (∀ (user : Option String) (st : LeadStore) (sel : Option Lead),
      ∀ a ∈ (handleConvertToQuote user st sel).leadActivities,
        a ∈ st.leadActivities ∨ a.activity_type ∈ extendedActivityKinds) ∧
    (∀ (user : Option String) (st : LeadStore) (sel : Option Lead) (note : String),
      ∀ a ∈ (handleAddNote user st sel note).leadActivities,
        a ∈ st.leadActivities ∨ a.activity_type ∈ extendedActivityKinds) := by
  refine ⟨?_, ?_, ?_, ?_, ?_, ?_, ?_⟩
  · intro sink st id u a hmem
    cases h : findOrder st id with
    | none =>
      have hmem2 : a ∈ st.activities := by
        unfold updateOrder at hmem
        rw [h] at hmem
        exact hmem
      exact Or.inl hmem2
    | some cur =>
      have hact : (updateOrder sink st id u).store.activities
          = st.activities ++ statusActs cur (applyUpdates cur u) u
            ++ userAssignActs cur (applyUpdates cur u) u
            ++ teamAssignActs cur (applyUpdates cur u)
                (resolveTeam st (applyUpdates cur u).assigned_to_team_id) u := by
        unfold updateOrder
        rw [h]
      rw [hact] at hmem
      rcases List.mem_append.mp hmem with h1 | hC
      · rcases List.mem_append.mp h1 with h2 | hB
        · rcases List.mem_append.mp h2 with hOld | hA
          · exact Or.inl hOld
          · unfold statusActs at hA
            have hax := mem_singleton_of_ite hA
            subst hax
            exact Or.inr (show "status_changed" ∈ extendedActivityKinds by decide)
        · unfold userAssignActs at hB
          have hax := mem_singleton_of_ite hB
          subst hax
          exact Or.inr (show "assigned" ∈ extendedActivityKinds by decide)
      · unfold teamAssignActs at hC
        have hax := mem_singleton_of_ite hC
        subst hax
        exact Or.inr (show "team_assigned" ∈ extendedActivityKinds by decide)
  · intro st o a hmem
    have hmem2 : a ∈ st.activities ++
        [{ order_id := o.id, user_id := none, activity_type := "created",
           description := "Order skapad", old_value := none, new_value := none }] := hmem
    rcases List.mem_append.mp hmem2 with h1 | h1
    · exact Or.inl h1
    · simp only [List.mem_singleton] at h1
      subst h1
      exact Or.inr (show "created" ∈ extendedActivityKinds by decide)
  · intro st note a hmem
    have hmem2 : a ∈ st.activities ++
        [{ order_id := note.order_id, user_id := some note.user_id,
           activity_type := "note_added", description := "Anteckning tillagd",
           old_value := none, new_value := none }] := hmem
    rcases List.mem_append.mp hmem2 with h1 | h1
    · exact Or.inl h1
    · simp only [List.mem_singleton] at h1
      subst h1
      exact Or.inr (show "note_added" ∈ extendedActivityKinds by decide)
  · intro user st dragged ns a hmem
    cases dragged with
    | none => exact Or.inl hmem
    | some l =>
      simp only [handleDrop] at hmem
      by_cases hb : (l.status == ns) = true
      · rw [if_pos hb] at hmem
        exact Or.inl hmem
      · rw [if_neg hb] at hmem
        rcases hul : updateLead st l.id { status := some ns } with ⟨res, st1⟩
        rw [hul] at hmem
        have hst1 : st1.leadActivities = st.leadActivities := by
          have h2 := updateLead_leadActivities st l.id { status := some ns }
          rw [hul] at h2
          exact h2
        cases res with
        | none =>
          have hmem2 : a ∈ st1.leadActivities := hmem
          exact Or.inl (hst1 ▸ hmem2)
        | some lead =>
          cases user with
          | none =>
            have hmem2 : a ∈ st1.leadActivities := hmem
            exact Or.inl (hst1 ▸ hmem2)
          | some uid =>
            have hmem2 : a ∈ st1.leadActivities ++
                [{ lead_id := l.id, user_id := some uid, activity_type := "status_change",
                   description := "Status ändrad från " ++ statusLabels l.status
                     ++ " till " ++ statusLabels ns }] := hmem
            rcases List.mem_append.mp hmem2 with h1 | h1
            · exact Or.inl (hst1 ▸ h1)
            · simp only [List.mem_singleton] at h1
              subst h1
              exact Or.inr (show "status_change" ∈ extendedActivityKinds by decide)
  · intro user tm st leadId nid a hmem
    unfold handleAssignmentChange at hmem
    rcases hul : updateLead st leadId
        { assigned_to_user_id := some (if nid == "" then none else some nid) } with ⟨res, st1⟩
    rw [hul] at hmem
    have hst1 : st1.leadActivities = st.leadActivities := by
      have h2 := updateLead_leadActivities st leadId
        { assigned_to_user_id := some (if nid == "" then none else some nid) }
      rw [hul] at h2
      exact h2
    cases res with
    | none =>
      have hmem2 : a ∈ st1.leadActivities := hmem
      exact Or.inl (hst1 ▸ hmem2)
    | some lead =>
      cases user with
      | none =>
        have hmem2 : a ∈ st1.leadActivities := hmem
        exact Or.inl (hst1 ▸ hmem2)
      | some uid =>
        have hmem2 : a ∈ st1.leadActivities ++
            [{ lead_id := leadId, user_id := some uid, activity_type := "assignment_change",
               description :=
                 match (if nid == "" then none
                   else tm.find? (fun m => m.1 == nid)) with
                 | some m => "Lead tilldelad till " ++ m.2
                 | none => "Lead-tilldelning borttagen" }] := hmem
        rcases List.mem_append.mp hmem2 with h1 | h1
        · exact Or.inl (hst1 ▸ h1)
        · simp only [List.mem_singleton] at h1
          subst h1
          exact Or.inr (show "assignment_change" ∈ extendedActivityKinds by decide)
  · intro user st sel a hmem
    cases sel with
    | none => exact Or.inl hmem
    | some l =>
      cases user with
      | none => exact Or.inl hmem
      | some uid =>
        have hmem2 : a ∈ (if (l.status == "qualified") = true
            then createLeadActivity st l.id (some uid) "converted_to_quote"
              "Lead konverterad till offert"
            else (updateLead (createLeadActivity st l.id (some uid) "converted_to_quote"
              "Lead konverterad till offert") l.id { status := some "qualified" }).2).leadActivities := hmem
        have hconv : ∀ b ∈ (createLeadActivity st l.id (some uid) "converted_to_quote"
            "Lead konverterad till offert").leadActivities,
            b ∈ st.leadActivities ∨ b.activity_type ∈ extendedActivityKinds := by
          intro b hb
          have hb2 : b ∈ st.leadActivities ++
              [{ lead_id := l.id, user_id := some uid, activity_type := "converted_to_quote",
                 description := "Lead konverterad till offert" }] := hb
          rcases List.mem_append.mp hb2 with h1 | h1
          · exact Or.inl h1
          · simp only [List.mem_singleton] at h1
            subst h1
            exact Or.inr (show "converted_to_quote" ∈ extendedActivityKinds by decide)
        by_cases hq : (l.status == "qualified") = true
        · rw [if_pos hq] at hmem2
          exact hconv a hmem2
        · rw [if_neg hq] at hmem2
          rw [updateLead_leadActivities] at hmem2
          exact hconv a hmem2
  · intro user st sel note a hmem
    unfold handleAddNote at hmem
    by_cases ht : (note.trim == "") = true
    · rw [if_pos ht] at hmem
      exact Or.inl hmem
    · rw [if_neg ht] at hmem
      cases sel with
      | none => exact Or.inl hmem
      | some l =>
        cases user with
        | none => exact Or.inl hmem
        | some uid =>
          have hmem2 : a ∈ st.leadActivities ++
              [{ lead_id := l.id, user_id := some uid, activity_type := "note_added",
                 description := "Anteckning tillagd" }] := hmem
          rcases List.mem_append.mp hmem2 with h1 | h1
          · exact Or.inl h1
          · simp only [List.mem_singleton] at h1
            subst h1
            exact Or.inr (show "note_added" ∈ extendedActivityKinds by decide)

/-- The one activity appended by the concrete lead assignment change
used in the C8 witness. -/
def exActC8 : LeadActivity :=
  { lead_id := "l8", user_id := some "u1", activity_type := "assignment_change",
    description := "Lead tilldelad till Beta Person" }

/-- Witness for the amended C8 at a concrete lead assignment change. -/
theorem activity_kinds_bounded_witness :
    exActC8 ∈ exLeadStoreC8.leadActivities
      ∨ exActC8.activity_type ∈ extendedActivityKinds :=
  activity_kinds_bounded.2.2.2.2.1 (some "u1") [("u2", "Beta Person")] exLeadStoreC8
    "l8" "u2" exActC8 (by decide)

end Spec2Proof
